import Mathlib

/-!
Verification of the blogicum blog application (`blog/views.py`) against its
natural-language specification.

The embedding models the database as in-memory lists, timestamps as integers,
and each Django class-based view as a pure function from the request data and
the database to a `Response`.  Strings (usernames, slugs, text) are modelled
as numeric identifiers, which is faithful for every property here: only
equality of these values is ever inspected by the code.
-/

namespace Blogicum

/-- Category row (`blog/models.py`): `slug` identifies it, `is_published` is
the moderation flag. -/
structure Category where
  id : Nat
  slug : Nat
  is_published : Bool
deriving DecidableEq

/-- Post row: `author` is the author's user id, `category` the related
category row (views always `select_related` it), `pub_date` a timestamp. -/
structure Post where
  id : Nat
  author : Nat
  category : Category
  pub_date : Int
  is_published : Bool
deriving DecidableEq

/-- Comment row: `post` is the id of the commented post, `text` the comment
body (an opaque token). -/
structure Comment where
  id : Nat
  post : Nat
  author : Nat
  text : Nat
deriving DecidableEq

/-- User row. -/
structure User where
  id : Nat
  username : Nat
deriving DecidableEq

/-- The relational state the views read and write. -/
structure Db where
  posts : List Post
  comments : List Comment
  categories : List Category
  users : List User
deriving DecidableEq

/-- The filter condition of `get_filtered_posts` (views.py lines 23-26):
`pub_date__lte=timezone.now(), is_published=True, category__is_published=True`. -/
def publicVisible (now : Int) (p : Post) : Bool :=
  decide (p.pub_date ≤ now) && p.is_published && p.category.is_published

/-- `annotate(comment_count=Count('comments'))`: the number of comments whose
`post` foreign key is `p`. -/
def commentCount (comments : List Comment) (p : Post) : Nat :=
  (comments.filter (fun c => c.post == p.id)).length

/-- A post together with its annotated `comment_count`, as rows of the
queryset built by `get_filtered_posts`. -/
structure AnnPost where
  post : Post
  comment_count : Nat
deriving DecidableEq

/-- The annotation step of `get_filtered_posts`. -/
def annotate (comments : List Comment) (p : Post) : AnnPost :=
  { post := p, comment_count := commentCount comments p }

/-- The `order_by('-pub_date')` ordering: `a` precedes `b` when `a` is at
least as new. -/
def newerFirst (a b : AnnPost) : Prop :=
  b.post.pub_date ≤ a.post.pub_date

instance : DecidableRel newerFirst :=
  fun a b => inferInstanceAs (Decidable (b.post.pub_date ≤ a.post.pub_date))

instance : IsTotal AnnPost newerFirst :=
  ⟨fun a b => (Int.le_total a.post.pub_date b.post.pub_date).symm⟩

instance : IsTrans AnnPost newerFirst :=
  ⟨fun _ _ _ h1 h2 => le_trans h2 h1⟩

/-- `get_filtered_posts` (views.py lines 17-29): filter by the publication
predicate, annotate each row with its comment count, order newest first. -/
def get_filtered_posts (now : Int) (db : Db) : List AnnPost :=
  List.insertionSort newerFirst
    ((db.posts.filter (publicVisible now)).map (annotate db.comments))

/-- Django pagination: page `n` (1-based) of a queryset holds items
`(n-1)*per` through `n*per - 1`. -/
def paginatePage (per : Nat) (l : List AnnPost) (page : Nat) : List AnnPost :=
  (l.drop ((page - 1) * per)).take per

/-- The outcome of handling one request. -/
inductive Response (α : Type) where
  | ok : α → Response α
  | notFound : Response α
  | redirectLogin : Response α
  | serverError : Response α
deriving DecidableEq

/-- Primary-key lookup of a post. -/
def findPost (db : Db) (pid : Nat) : Option Post :=
  db.posts.find? (fun p => p.id == pid)

/-- Primary-key lookup of a comment. -/
def findComment (db : Db) (cid : Nat) : Option Comment :=
  db.comments.find? (fun c => c.id == cid)

/-- `PostListView.paginate_by` (views.py line 36). -/
def PostListView.paginate_by : Nat := 10

/-- `CategoryListView.paginate_by` (views.py line 70). -/
def CategoryListView.paginate_by : Nat := 10

/-- `ProfileListView.paginate_by` (views.py line 160). -/
def ProfileListView.paginate_by : Nat := 10

/-- `PostListView` (views.py lines 32-39): page `page` of
`get_filtered_posts()`. -/
def PostListView.page (now : Int) (db : Db) (page : Nat) : List AnnPost :=
  paginatePage PostListView.paginate_by (get_filtered_posts now db) page

/-- `PostDetailView` (views.py lines 42-63).  The `get_object` override that
would restrict the lookup to publicly visible posts is commented out in the
source (lines 48-55), so the default `DetailView` lookup by primary key runs
against the unfiltered `Post` model, for every viewer (`viewer` is `none`
for an anonymous request).  Returns the post with its comments, or 404 when
the id is absent. -/
def PostDetailView.get (db : Db) (viewer : Option Nat) (pid : Nat) :
    Response (Post × List Comment) :=
  match viewer, findPost db pid with
  | _, none => Response.notFound
  | _, some p => Response.ok (p, db.comments.filter (fun c => c.post == p.id))

/-- `CategoryListView.get_queryset` (views.py lines 72-75):
`get_filtered_posts().filter(category__slug=...)`. -/
def CategoryListView.queryset (now : Int) (db : Db) (slug : Nat) : List AnnPost :=
  (get_filtered_posts now db).filter (fun a => a.post.category.slug == slug)

/-- `CategoryListView.get_context_data` (views.py lines 77-84):
`get_object_or_404(Category, is_published=True, slug=...)`. -/
def CategoryListView.context (cats : List Category) (slug : Nat) : Option Category :=
  cats.find? (fun c => c.is_published && c.slug == slug)

/-- `CategoryListView` (views.py lines 66-84): the page renders the paginated
queryset together with the category record; the context lookup raises 404
when no published category carries the slug. -/
def CategoryListView.get (now : Int) (db : Db) (slug page : Nat) :
    Response (List AnnPost × Category) :=
  match CategoryListView.context db.categories slug with
  | none => Response.notFound
  | some c =>
      Response.ok (paginatePage CategoryListView.paginate_by
        (CategoryListView.queryset now db slug) page, c)

/-- `ProfileListView.get_queryset` (views.py lines 162-167):
`get_filtered_posts().filter(author=...)` for the profile owner `w`. -/
def ProfileListView.queryset (now : Int) (db : Db) (w : User) : List AnnPost :=
  (get_filtered_posts now db).filter (fun a => a.post.author == w.id)

/-- `ProfileListView` (views.py lines 156-176): `LoginRequiredMixin` sends an
anonymous requester to the login page; otherwise the profile owner is looked
up by username (404 if absent) and their filtered posts are paginated. -/
def ProfileListView.get (now : Int) (db : Db) (requester : Option Nat)
    (uname page : Nat) : Response (List AnnPost × User) :=
  match requester with
  | none => Response.redirectLogin
  | some _ =>
      match db.users.find? (fun u => u.username == uname) with
      | none => Response.notFound
      | some w =>
          Response.ok (paginatePage ProfileListView.paginate_by
            (ProfileListView.queryset now db w) page, w)

/-- The data a client submits to the post form.  `PostForm` lives in
`blog/forms.py`, which is not among the sources; the `author` field models a
client-supplied author value.  Modelled from the spec: the handlers stamp
`author = current user` server-side, ignoring any client-supplied author
field, so the form may carry one. -/
structure PostFormData where
  author : Nat
  category : Category
  pub_date : Int
  is_published : Bool
deriving DecidableEq

/-- `PostCreateView` (views.py lines 87-101): login required; `form_valid`
sets `form.instance.author = self.request.user` before saving, so the stored
row ignores `f.author`.  Returns the new database and the stored post. -/
def PostCreateView.post (db : Db) (requester : Option Nat) (newId : Nat)
    (f : PostFormData) : Response (Db × Post) :=
  match requester with
  | none => Response.redirectLogin
  | some u =>
      let p : Post := { id := newId, author := u, category := f.category,
                        pub_date := f.pub_date, is_published := f.is_published }
      Response.ok ({ db with posts := db.posts ++ [p] }, p)

/-- `PostUpdateView` (views.py lines 104-119): login required; the object is
fetched by primary key (404 if absent) with NO author check (no `dispatch`
override exists), and `form_valid` overwrites `instance.author` with the
requesting user before saving. -/
def PostUpdateView.post (db : Db) (requester : Option Nat) (pid : Nat)
    (f : PostFormData) : Response (Db × Post) :=
  match requester with
  | none => Response.redirectLogin
  | some u =>
      match findPost db pid with
      | none => Response.notFound
      | some _ =>
          let p : Post := { id := pid, author := u, category := f.category,
                            pub_date := f.pub_date, is_published := f.is_published }
          Response.ok
            ({ db with posts := db.posts.map (fun q => if q.id == pid then p else q) }, p)

/-- `PostDeleteView` (views.py lines 122-153): login required; the `dispatch`
override that would compare `self.get_object().author` to `request.user` and
redirect on mismatch is commented out in the source (lines 141-144), so the
confirmed deletion runs for every authenticated requester. -/
def PostDeleteView.post (db : Db) (requester : Option Nat) (pid : Nat) :
    Response Db :=
  match requester with
  | none => Response.redirectLogin
  | some _ =>
      match findPost db pid with
      | none => Response.notFound
      | some _ =>
          Response.ok { db with posts := db.posts.filter (fun p => p.id != pid) }

/-- Number of parameters of `get_filtered_posts` as defined in views.py line
17: `def get_filtered_posts():` takes none. -/
def get_filtered_posts_arity : Nat := 0

/-- Number of arguments `CommentCreateView.form_valid` passes to
`get_filtered_posts` at views.py line 225: `get_filtered_posts(Post.objects)`
passes one. -/
def commentCreate_call_arity : Nat := 1

/-- `CommentCreateView` (views.py lines 216-235): login required; `form_valid`
resolves the target post with `get_object_or_404(get_filtered_posts(Post.objects), pk=...)`.
Python evaluates the call `get_filtered_posts(Post.objects)` first; since the
callee takes no parameters, the call raises `TypeError` whenever the arities
differ, which surfaces as an HTTP 500 page.  Were the arities equal, the
intended path would resolve the post through the visibility filter (404 when
it is not publicly visible) and attach the new comment to it. -/
def CommentCreateView.post (now : Int) (db : Db) (requester : Option Nat)
    (pid newId txt : Nat) : Response (Db × Comment) :=
  match requester with
  | none => Response.redirectLogin
  | some u =>
      if commentCreate_call_arity == get_filtered_posts_arity then
        match (get_filtered_posts now db).find? (fun a => a.post.id == pid) with
        | none => Response.notFound
        | some a =>
            let c : Comment := { id := newId, post := a.post.id, author := u, text := txt }
            Response.ok ({ db with comments := db.comments ++ [c] }, c)
      else
        Response.serverError

/-- `CommentUpdateView` (views.py lines 238-251): login required; the
`dispatch` override that would 404 unless the requester authored the comment
is commented out (lines 244-251), so the edit runs for every authenticated
requester; `CommentMixin.form_valid` additionally reassigns
`instance.author = request.user`. -/
def CommentUpdateView.post (db : Db) (requester : Option Nat) (cid txt : Nat) :
    Response (Db × Comment) :=
  match requester with
  | none => Response.redirectLogin
  | some u =>
      match findComment db cid with
      | none => Response.notFound
      | some c0 =>
          let c : Comment := { c0 with text := txt, author := u }
          Response.ok
            ({ db with comments := db.comments.map (fun c1 => if c1.id == cid then c else c1) }, c)

/-- `CommentDeleteView` (views.py lines 254-265): login required; the
`dispatch` override that would restrict deletion to the comment's author is
commented out (lines 259-265), so the deletion runs for every authenticated
requester. -/
def CommentDeleteView.post (db : Db) (requester : Option Nat) (cid : Nat) :
    Response Db :=
  match requester with
  | none => Response.redirectLogin
  | some _ =>
      match findComment db cid with
      | none => Response.notFound
      | some _ =>
          Response.ok { db with comments := db.comments.filter (fun c => c.id != cid) }

/-- The author field of the stored post, when a create or update request
succeeded. -/
def createdAuthor : Response (Db × Post) → Option Nat
  | Response.ok (_, p) => some p.author
  | Response.notFound => none
  | Response.redirectLogin => none
  | Response.serverError => none

/-- A published category used in concrete scenarios. -/
def exCat : Category := { id := 1, slug := 5, is_published := true }

/-- An unpublished post with a past publication date, authored by user 1. -/
def exPost : Post :=
  { id := 7, author := 1, category := exCat, pub_date := 0, is_published := false }

/-- A comment on `exPost`, authored by user 1. -/
def exComment : Comment := { id := 11, post := 7, author := 1, text := 3 }

/-- Form data carrying a client-supplied author value of 9. -/
def exForm : PostFormData :=
  { author := 9, category := exCat, pub_date := 0, is_published := true }

/-- A concrete database: one unpublished post by user 1, one comment, two
users. -/
def exDb : Db :=
  { posts := [exPost], comments := [exComment], categories := [exCat],
    users := [{ id := 1, username := 1 }, { id := 2, username := 2 }] }

/-- C1: the spec says a post is visible to a non-author viewer iff
`is_published ∧ category.is_published ∧ pub_date ≤ now`, and that the detail
page shows it to such a viewer only then.  The code violates this: with the
`get_object` override commented out, `PostDetailView` renders post 7 to
viewer 2 (not its author) even though the post is unpublished, so the
visibility predicate is false while the page is shown. -/
theorem c1_detail_page_ignores_visibility :
    publicVisible 100 exPost = false ∧ exPost.author ≠ 2 ∧
    PostDetailView.get exDb (some 2) 7 = Response.ok (exPost, [exComment]) := by
  decide

/-- C2: the spec says an update or delete by an authenticated non-author
redirects and performs no mutation.  The code violates this: the author
guards are commented out, so user 2 deletes post 7 (authored by user 1) and
comment 11 (authored by user 1); both rows are removed from the database. -/
theorem c2_authorization_guard_absent :
    exPost.author ≠ 2 ∧ exComment.author ≠ 2 ∧
    PostDeleteView.post exDb (some 2) 7 = Response.ok { exDb with posts := [] } ∧
    CommentDeleteView.post exDb (some 2) 11 =
      Response.ok { exDb with comments := [] } := by
  decide

/-- C4: the spec says comment creation resolves its target post through the
visibility filter, creating the comment or returning 404.  The code violates
this: `form_valid` calls `get_filtered_posts(Post.objects)` although
`get_filtered_posts` takes no parameters, so every authenticated comment
submission raises `TypeError` and renders the 500 page; no comment is ever
created and no 404 is reached. -/
theorem c4_comment_creation_raises_type_error (now : Int) (db : Db)
    (u pid newId txt : Nat) :
    CommentCreateView.post now db (some u) pid newId txt =
      Response.serverError := rfl

/-- C5: every valid post create or update submission stores the requesting
user as the post's author, regardless of the author value carried by the
form data `f`. -/
theorem c5_author_stamped_server_side (db : Db) (u newId pid : Nat)
    (f : PostFormData) :
    createdAuthor (PostCreateView.post db (some u) newId f) = some u ∧
    ((findPost db pid).isSome = true →
      createdAuthor (PostUpdateView.post db (some u) pid f) = some u) := by
  refine ⟨rfl, fun h => ?_⟩
  rcases Option.isSome_iff_exists.mp h with ⟨p, hp⟩
  simp [PostUpdateView.post, hp, createdAuthor]

/-- Witness for C5: user 2 creating a fresh post and updating post 7 of the
concrete database, with the form requesting author 9, stores author 2 both
times. -/
theorem c5_witness :
    createdAuthor (PostCreateView.post exDb (some 2) 9 exForm) = some 2 ∧
    createdAuthor (PostUpdateView.post exDb (some 2) 7 exForm) = some 2 :=
  ⟨(c5_author_stamped_server_side exDb 2 9 7 exForm).1,
   (c5_author_stamped_server_side exDb 2 9 7 exForm).2 (by decide)⟩

/-- C10: every unauthenticated request to the profile page is redirected to
the login page, for any database, username and page number. -/
theorem c10_anonymous_profile_redirected_to_login (now : Int) (db : Db)
    (uname page : Nat) :
    ProfileListView.get now db none uname page = Response.redirectLogin := rfl

/-- Membership in the home queryset is membership in the annotated image of
the visibility-filtered posts. -/
theorem mem_get_filtered_posts (now : Int) (db : Db) (a : AnnPost) :
    a ∈ get_filtered_posts now db ↔
      ∃ p, p ∈ db.posts ∧ publicVisible now p = true ∧
        a = annotate db.comments p := by
  rw [get_filtered_posts, List.mem_insertionSort, List.mem_map]
  constructor
  · rintro ⟨p, hp, rfl⟩
    exact ⟨p, (List.mem_filter.mp hp).1, (List.mem_filter.mp hp).2, rfl⟩
  · rintro ⟨p, hp, hv, rfl⟩
    exact ⟨p, List.mem_filter.mpr ⟨hp, hv⟩, rfl⟩

/-- C3: the home listing queryset holds exactly the posts passing the
visibility predicate (a permutation of the filtered, annotated posts and a
membership characterisation fixing each row's comment count), ordered by
`pub_date` descending. -/
theorem c3_home_listing_exact (now : Int) (db : Db) :
    List.Perm (get_filtered_posts now db)
      ((db.posts.filter (publicVisible now)).map (annotate db.comments)) ∧
    List.Sorted newerFirst (get_filtered_posts now db) ∧
    ∀ a, a ∈ get_filtered_posts now db ↔
      ∃ p, p ∈ db.posts ∧ publicVisible now p = true ∧
        a = annotate db.comments p :=
  ⟨List.perm_insertionSort _ _, List.sorted_insertionSort _ _,
   fun a => mem_get_filtered_posts now db a⟩

/-- C6: a post with a future publication date is absent from the home
queryset and from every home page, yet a GET of its detail page by its
author returns it together with its comments. -/
theorem c6_future_post_hidden_on_home_visible_to_author (now : Int) (db : Db)
    (p : Post) (hfut : now < p.pub_date) (hmem : findPost db p.id = some p) :
    (∀ a ∈ get_filtered_posts now db, a.post ≠ p) ∧
    (∀ n, ∀ a ∈ PostListView.page now db n, a.post ≠ p) ∧
    PostDetailView.get db (some p.author) p.id =
      Response.ok (p, db.comments.filter (fun c => c.post == p.id)) := by
  have hnot : ∀ a ∈ get_filtered_posts now db, a.post ≠ p := by
    intro a ha heq
    rcases (mem_get_filtered_posts now db a).mp ha with ⟨q, _, hv, rfl⟩
    have hq : q = p := heq
    rw [hq, publicVisible] at hv
    have hle : p.pub_date ≤ now := by
      have := (Bool.and_eq_true _ _).mp ((Bool.and_eq_true _ _).mp hv).1
      exact of_decide_eq_true this.1
    exact absurd hfut (not_lt.mpr hle)
  refine ⟨hnot, ?_, ?_⟩
  · intro n a ha
    exact hnot a
      (List.drop_subset _ _ (List.take_subset _ _ ha))
  · simp [PostDetailView.get, hmem]

/-- A post dated in the future relative to time 10. -/
def futPost : Post :=
  { id := 8, author := 1, category := exCat, pub_date := 50, is_published := true }

/-- A database holding only the future-dated post. -/
def futDb : Db :=
  { posts := [futPost], comments := [], categories := [exCat],
    users := [{ id := 1, username := 1 }] }

/-- Witness for C6: at time 10 the post dated 50 is on no home page, yet its
author fetches it on the detail page. -/
theorem c6_witness :
    (∀ a ∈ get_filtered_posts 10 futDb, a.post ≠ futPost) ∧
    (∀ n, ∀ a ∈ PostListView.page 10 futDb n, a.post ≠ futPost) ∧
    PostDetailView.get futDb (some futPost.author) futPost.id =
      Response.ok (futPost, futDb.comments.filter (fun c => c.post == futPost.id)) :=
  c6_future_post_hidden_on_home_visible_to_author 10 futDb futPost
    (by decide) (by decide)

/-- The items carried by a successful listing response (empty otherwise). -/
def pageItems {β : Type} : Response (List AnnPost × β) → List AnnPost
  | Response.ok (items, _) => items
  | Response.notFound => []
  | Response.redirectLogin => []
  | Response.serverError => []

/-- A page never exceeds the configured page size. -/
theorem paginatePage_length_le (per : Nat) (l : List AnnPost) (page : Nat) :
    (paginatePage per l page).length ≤ per := by
  rw [paginatePage, List.length_take]
  exact min_le_left _ _

/-- A page followed by at least one further item of the queryset holds
exactly the configured page size. -/
theorem paginatePage_length_eq (per : Nat) (l : List AnnPost) (page : Nat)
    (h : (page - 1) * per + per ≤ l.length) :
    (paginatePage per l page).length = per := by
  rw [paginatePage, List.length_take, List.length_drop]
  omega

/-- C7: the home, category and profile listings all paginate at exactly 10
items per page: no page of any of the three exceeds 10 items, and whenever
the handler's queryset extends past the requested page, that page holds
exactly 10 items — for the home queryset, for the category queryset of any
resolvable category, and for the profile queryset of any resolvable user. -/
theorem c7_listings_paginate_at_ten (now : Int) (db : Db)
    (slug uname page v : Nat) :
    (PostListView.page now db page).length ≤ 10 ∧
    (pageItems (CategoryListView.get now db slug page)).length ≤ 10 ∧
    (pageItems (ProfileListView.get now db (some v) uname page)).length ≤ 10 ∧
    ((page - 1) * 10 + 10 ≤ (get_filtered_posts now db).length →
      (PostListView.page now db page).length = 10) ∧
    (∀ c, CategoryListView.context db.categories slug = some c →
      (page - 1) * 10 + 10 ≤ (CategoryListView.queryset now db slug).length →
      (pageItems (CategoryListView.get now db slug page)).length = 10) ∧
    (∀ w, db.users.find? (fun u => u.username == uname) = some w →
      (page - 1) * 10 + 10 ≤ (ProfileListView.queryset now db w).length →
      (pageItems (ProfileListView.get now db (some v) uname page)).length = 10) := by
  refine ⟨paginatePage_length_le _ _ _, ?_, ?_, ?_, ?_, ?_⟩
  · cases hc : CategoryListView.context db.categories slug with
    | none => simp [CategoryListView.get, hc, pageItems]
    | some c =>
        simp only [CategoryListView.get, hc, pageItems]
        exact paginatePage_length_le _ _ _
  · cases hu : db.users.find? (fun u => u.username == uname) with
    | none => simp [ProfileListView.get, hu, pageItems]
    | some w =>
        simp only [ProfileListView.get, hu, pageItems]
        exact paginatePage_length_le _ _ _
  · intro h
    rw [PostListView.page, PostListView.paginate_by]
    exact paginatePage_length_eq 10 _ page h
  · intro c hc h
    simp only [CategoryListView.get, hc, pageItems, CategoryListView.paginate_by]
    exact paginatePage_length_eq 10 _ page h
  · intro w hw h
    simp only [ProfileListView.get, hw, pageItems, ProfileListView.paginate_by]
    exact paginatePage_length_eq 10 _ page h

/-- A database of twelve published, past-dated posts by user 1. -/
def bigDb : Db :=
  { posts := (List.range 12).map (fun i =>
      { id := i, author := 1, category := exCat,
        pub_date := (i : Int), is_published := true }),
    comments := [], categories := [exCat],
    users := [{ id := 1, username := 1 }] }

/-- Witness for C7: with twelve visible posts by user 1 in category 5, page
1 of each of the three listings has at most 10 items and each holds exactly
10. -/
theorem c7_witness :
    (PostListView.page 100 bigDb 1).length ≤ 10 ∧
    (pageItems (CategoryListView.get 100 bigDb 5 1)).length ≤ 10 ∧
    (pageItems (ProfileListView.get 100 bigDb (some 1) 1 1)).length ≤ 10 ∧
    (PostListView.page 100 bigDb 1).length = 10 ∧
    (pageItems (CategoryListView.get 100 bigDb 5 1)).length = 10 ∧
    (pageItems (ProfileListView.get 100 bigDb (some 1) 1 1)).length = 10 :=
  ⟨(c7_listings_paginate_at_ten 100 bigDb 5 1 1 1).1,
   (c7_listings_paginate_at_ten 100 bigDb 5 1 1 1).2.1,
   (c7_listings_paginate_at_ten 100 bigDb 5 1 1 1).2.2.1,
   (c7_listings_paginate_at_ten 100 bigDb 5 1 1 1).2.2.2.1 (by decide),
   (c7_listings_paginate_at_ten 100 bigDb 5 1 1 1).2.2.2.2.1 exCat
     (by decide) (by decide),
   (c7_listings_paginate_at_ten 100 bigDb 5 1 1 1).2.2.2.2.2
     { id := 1, username := 1 } (by decide) (by decide)⟩

/-- C8: the profile queryset of user `w` holds exactly `w`'s posts passing
the public visibility predicate — so `w`'s own unpublished or future posts
never appear — and the rendered profile page does not depend on which
authenticated user requests it. -/
theorem c8_profile_lists_only_public_posts (now : Int) (db : Db) (w : User)
    (a : AnnPost) (v1 v2 uname page : Nat) :
    (a ∈ ProfileListView.queryset now db w ↔
      ∃ p, p ∈ db.posts ∧ p.author = w.id ∧ publicVisible now p = true ∧
        a = annotate db.comments p) ∧
    ProfileListView.get now db (some v1) uname page =
      ProfileListView.get now db (some v2) uname page := by
  refine ⟨?_, rfl⟩
  rw [ProfileListView.queryset, List.mem_filter]
  constructor
  · rintro ⟨ha, hauth⟩
    rcases (mem_get_filtered_posts now db a).mp ha with ⟨p, hp, hv, rfl⟩
    exact ⟨p, hp, by simpa [annotate] using hauth, hv, rfl⟩
  · rintro ⟨p, hp, hauth, hv, rfl⟩
    exact ⟨(mem_get_filtered_posts now db _).mpr ⟨p, hp, hv, rfl⟩,
      by simp [annotate, hauth]⟩

/-- C9: when every category carrying the requested slug is unpublished, the
category page is a 404, not an empty listing: the context lookup requires
`is_published=True`. -/
theorem c9_unpublished_category_renders_404 (now : Int) (db : Db)
    (c : Category) (slug page : Nat)
    (hc : c ∈ db.categories) (hslug : c.slug = slug)
    (hunpub : c.is_published = false)
    (huniq : ∀ c2 ∈ db.categories, c2.slug = slug → c2 = c) :
    CategoryListView.get now db slug page = Response.notFound := by
  have hfind : CategoryListView.context db.categories slug = none := by
    rw [CategoryListView.context, List.find?_eq_none]
    intro x hx hpx
    rcases (Bool.and_eq_true _ _).mp hpx with ⟨hpub, hsl⟩
    have hx2 : x = c := huniq x hx (by simpa using hsl)
    rw [hx2, hunpub] at hpub
    exact Bool.false_ne_true hpub
  simp [CategoryListView.get, hfind]

/-- An unpublished category with slug 6. -/
def unpubCat : Category := { id := 2, slug := 6, is_published := false }

/-- A database whose only category is the unpublished one. -/
def c9Db : Db :=
  { posts := [], comments := [], categories := [unpubCat], users := [] }

/-- Witness for C9: requesting slug 6, carried only by the unpublished
category, yields a 404. -/
theorem c9_witness : CategoryListView.get 0 c9Db 6 1 = Response.notFound :=
  c9_unpublished_category_renders_404 0 c9Db unpubCat 6 1
    (by decide) (by decide) (by decide) (by decide)

end Blogicum
